import Mathlib

/-!
Verification of the vox-asr-tui capture/transcription core.

This file is a shallow embedding of the Python sources:
  * `src/tnt/app.py`    — SessionController (`TntApp._stop_and_transcribe`,
    `_start_recording`, `_stop_recording`);
  * `src/tnt/audio.py`  — the capture backends (`MicRecorder`,
    `TermuxMicRecorder`), the backend factory (`create_recorder`,
    `resolve_capture_backend`) and the WAV encoder (`MicRecorder._encode_wav`);
  * `src/tnt/widgets/status.py` — the waveform renderer
    (`StatusPanel._render_waveform`).

External effects (subprocess runs, stream handles, the filesystem, timers)
are made explicit: operations take the outcome of each external interaction
as a parameter and return, besides the successor state, the list of effects
they performed (directories created/removed, commands spawned, notifications
emitted, state-field writes).  Machine floats are modelled as exact reals or
rationals.
-/

namespace Tnt

/-! ## Session controller worker (`TntApp._stop_and_transcribe`, app.py) -/

/-- The three UI states of `TntApp.state` (app.py). -/
inductive AppState where
  | idle
  | recording
  | transcribing
deriving DecidableEq, Repr

/-- Outcome of `asyncio.wait_for(asyncio.to_thread(self.recorder.stop), 30)`:
a timeout, an exception raised by `stop()`, or the returned bytes
(modelled as a list of byte values; `[]` is the empty byte string). -/
inductive StopOutcome where
  | timeout
  | raised (msg : String)
  | bytes (wav : List Nat)
deriving DecidableEq, Repr

/-- Outcome of `self._init_transcriber()` followed by
`transcriber.transcribe_async(wav_bytes)`: the transcript text, or one of the
exception classes caught in `_stop_and_transcribe` (`FileNotFoundError`,
`RuntimeError`, any other `Exception`). -/
inductive TxOutcome where
  | text (t : String)
  | fileNotFound (msg : String)
  | runtimeFailure (msg : String)
  | otherFailure (msg : String)
deriving DecidableEq, Repr

/-- The `self.notify(...)` calls `_stop_and_transcribe` can emit, one
constructor per call site. -/
inductive Note where
  | stopTimedOut
  | stopError (msg : String)
  | noAudioCaptured
  | noSpeechDetected
  | txFileNotFound (msg : String)
  | txFailed (msg : String)
  | txOtherError (msg : String)
deriving DecidableEq, Repr

/-- Every externally visible effect of one run of `_stop_and_transcribe`:
whether the transcript placeholder was removed, the notifications emitted,
the texts appended to the `TranscriptView`, and the values written to
`self.state`, each in program order. -/
structure WorkerEffects where
  placeholderRemoved : Bool
  notes : List Note
  appends : List String
  stateWrites : List AppState
deriving DecidableEq, Repr

/-- The timeout (seconds) passed to `asyncio.wait_for` around
`self.recorder.stop` in `_stop_and_transcribe` (app.py line 210). -/
def stopTimeoutSeconds : Nat := 30

/-- Shallow embedding of `TntApp._stop_and_transcribe(session_id)` (app.py
lines 206-253).  `sessionId` is the id captured at launch; `currentId` is the
value of `self._recording_session_id` when the completion runs (no new
session can start between the last `await` and the end of the handler, so a
single value is faithful); `stopRes` and `txRes` are the outcomes of the two
awaited external calls.  Returns the effects the run performs.  Note that
every `self.state = "idle"` write is guarded by
`session_id == self._recording_session_id`, while `tv.append(text)` is not. -/
def stopAndTranscribe (sessionId currentId : Nat) (stopRes : StopOutcome)
    (txRes : TxOutcome) : WorkerEffects :=
  let idleIfCurrent : List AppState :=
    if sessionId = currentId then [.idle] else []
  match stopRes with
  | .timeout => ⟨true, [.stopTimedOut], [], idleIfCurrent⟩
  | .raised m => ⟨true, [.stopError m], [], idleIfCurrent⟩
  | .bytes wav =>
    if wav = [] then ⟨true, [.noAudioCaptured], [], idleIfCurrent⟩
    else
      match txRes with
      | .text t =>
        if t = "" then ⟨true, [.noSpeechDetected], [], idleIfCurrent⟩
        else ⟨true, [], [t], idleIfCurrent⟩
      | .fileNotFound m => ⟨true, [.txFileNotFound m], [], idleIfCurrent⟩
      | .runtimeFailure m => ⟨true, [.txFailed m], [], idleIfCurrent⟩
      | .otherFailure m => ⟨true, [.txOtherError m], [], idleIfCurrent⟩

/-! ## Backend factory (`create_recorder` / `resolve_capture_backend`,
audio.py) -/

/-- The two capture backends (`CaptureBackend = Literal["live", "termux_api"]`). -/
inductive Backend where
  | live
  | termuxApi
deriving DecidableEq, Repr

/-- Python `str.strip()`: remove leading and trailing whitespace. -/
def pyStrip (s : String) : String :=
  String.mk
    (((s.data.dropWhile Char.isWhitespace).reverse.dropWhile
        Char.isWhitespace).reverse)

/-- Python `str.lower()`: lowercase every character. -/
def pyLower (s : String) : String :=
  String.mk (s.data.map Char.toLower)

/-- `os.environ.get("TNT_CAPTURE_BACKEND", "").strip().lower()` — the
normalized value of the backend-selection variable (`none` = unset). -/
def normalizedBackendRequest (env : Option String) : String :=
  pyLower (pyStrip (env.getD ""))

/-- Shallow embedding of `resolve_capture_backend()` (audio.py lines
108-117).  `inProot` is the result of `_in_proot()`. -/
def resolveCaptureBackend (env : Option String) (inProot : Bool) : Backend :=
  let requested := normalizedBackendRequest env
  if requested = "live" then .live
  else if requested = "termux_api" then .termuxApi
  else if inProot then .termuxApi
  else .live

/-- `_format_backend_errors(errors)` (audio.py lines 97-105): the aggregate
message when both backends fail. -/
def formatBackendErrors (liveErr termuxErr : Option String) : String :=
  String.intercalate "\n"
    (["No usable audio capture backend found."]
      ++ (match liveErr with
          | some d => ["live: " ++ d]
          | none => [])
      ++ (match termuxErr with
          | some d => ["termux_api: " ++ d]
          | none => [])
      ++ ["Set TNT_CAPTURE_BACKEND=live or TNT_CAPTURE_BACKEND=termux_api."])

/-- Result of `create_recorder`: the constructed backend (or the raised
`RuntimeError` message) together with the list of backends whose constructor
was attempted, in order. -/
structure FactoryResult where
  result : Except String Backend
  attempts : List Backend
deriving Repr

/-- Shallow embedding of `create_recorder()` (audio.py lines 48-94).
`liveBuild` / `termuxBuild` are the outcomes of `MicRecorder(...)` /
`TermuxMicRecorder(...)` construction (`Except.error` carries the
`RuntimeError` message). -/
def createRecorder (env : Option String) (inProot : Bool)
    (liveBuild termuxBuild : Except String Unit) : FactoryResult :=
  let backend := resolveCaptureBackend env inProot
  let requested := normalizedBackendRequest env
  let explicitBackend : Bool := requested == "live" || requested == "termux_api"
  match backend with
  | .termuxApi =>
    match termuxBuild with
    | .ok _ => ⟨.ok .termuxApi, [.termuxApi]⟩
    | .error e1 =>
      if explicitBackend then ⟨.error e1, [.termuxApi]⟩
      else
        match liveBuild with
        | .ok _ => ⟨.ok .live, [.termuxApi, .live]⟩
        | .error e2 =>
          ⟨.error (formatBackendErrors (some e2) (some e1)), [.termuxApi, .live]⟩
  | .live =>
    match liveBuild with
    | .ok _ => ⟨.ok .live, [.live]⟩
    | .error e1 =>
      if explicitBackend then ⟨.error e1, [.live]⟩
      else
        match termuxBuild with
        | .ok _ => ⟨.ok .termuxApi, [.live, .termuxApi]⟩
        | .error e2 =>
          ⟨.error (formatBackendErrors (some e1) (some e2)), [.live, .termuxApi]⟩

/-! ## Clip capture engine (`TermuxMicRecorder`, audio.py) -/

/-- The mutable fields of `TermuxMicRecorder` relevant to capture lifecycle.
In the source, `_tmp_dir`, `_raw_path` and `_wav_path` are always set and
cleared together (`start` sets all three, `_cleanup_paths` clears all
three), so a single `Option` — `some d` for a temporary directory with
identity `d`, holding `capture.opus` / `capture.wav` — models them. -/
structure TermuxState where
  recording : Bool
  tmpDir : Option Nat
deriving DecidableEq, Repr

/-- State after `TermuxMicRecorder.__init__` (tools validated). -/
def termuxInit : TermuxState := ⟨false, none⟩

/-- Number of polling attempts in `TermuxMicRecorder.stop` (audio.py line
401, `for _ in range(20)`). -/
def termuxPollRetries : Nat := 20

/-- Sleep per polling attempt in milliseconds (`time.sleep(0.05)`,
audio.py line 404). -/
def termuxPollSleepMillis : Nat := 50

/-- Effects and result of one `TermuxMicRecorder.start()` call. -/
structure TermuxStartResult where
  state : TermuxState
  raisedError : Option String
  createdDirs : List Nat
  removedDirs : List Nat
  commandsRun : Nat
deriving DecidableEq, Repr

/-- Shallow embedding of `TermuxMicRecorder.start()` (audio.py lines
336-380).  `newDir` is the identity of the directory `tempfile.mkdtemp`
would create; `startCmdOk` is whether the `termux-microphone-record` start
command exits with code 0.  The preliminary quiet command and the start
command are counted in `commandsRun` (the quiet command's failure is
tolerated, so its exit code is not a parameter). -/
def termuxStart (s : TermuxState) (newDir : Nat) (startCmdOk : Bool) :
    TermuxStartResult :=
  if s.recording then ⟨s, none, [], [], 0⟩
  else
    let removedOld : List Nat :=
      match s.tmpDir with
      | some d => [d]
      | none => []
    if startCmdOk then
      ⟨⟨true, some newDir⟩, none, [newDir], removedOld, 2⟩
    else
      ⟨⟨false, none⟩, some "Failed to start termux microphone recording.",
        [newDir], removedOld ++ [newDir], 2⟩

/-- Effects and result of one `TermuxMicRecorder.stop()` call.  `result` is
the returned bytes (`Except.error` = a raised `RuntimeError`);
`quitCommandRun` records whether the `termux-microphone-record -q`
subprocess was spawned. -/
structure TermuxStopResult where
  state : TermuxState
  result : Except String (List Nat)
  removedDirs : List Nat
  quitCommandRun : Bool
deriving Repr

/-- Shallow embedding of `TermuxMicRecorder.stop()` (audio.py lines
382-449).  External-world parameters: `quitFails` — the quit command exits
nonzero; `rawOk` — the raw output file exists with non-zero size by the end
of the bounded polling window; `convertOk` — ffmpeg exits 0; `wavExists` —
the converted WAV file exists afterwards; `wavBytes` — its contents.  Every
branch taken while recording runs `_cleanup_paths()` (audio.py lines
461-468), which removes the temporary directory and clears the path
fields. -/
def termuxStop (s : TermuxState) (quitFails rawOk convertOk wavExists : Bool)
    (wavBytes : List Nat) : TermuxStopResult :=
  if s.recording = false then ⟨s, .ok [], [], false⟩
  else
    let cleaned : TermuxState := ⟨false, none⟩
    match s.tmpDir with
    | none => ⟨cleaned, .ok [], [], true⟩
    | some d =>
      if rawOk = false then ⟨cleaned, .ok [], [d], true⟩
      else if convertOk = false then
        ⟨cleaned, .error "Failed to convert Termux recording to WAV with ffmpeg.",
          [d], true⟩
      else if wavExists = false then
        ⟨cleaned,
          .error "WAV conversion completed but output file was not created.",
          [d], true⟩
      else if wavBytes = [] ∧ quitFails = true then
        ⟨cleaned, .error "Failed to stop termux microphone recording.",
          [d], true⟩
      else ⟨cleaned, .ok wavBytes, [d], true⟩

/-! ## Live capture engine (`MicRecorder`, audio.py) -/

/-- One PCM chunk delivered to `MicRecorder._audio_callback`: the int16
samples of the copied `indata` block, flattened in row-major order. -/
abbrev Chunk := List Int

/-- `np.sqrt(np.mean(samples ** 2))` over the chunk cast to float64
(audio.py lines 235-236). -/
noncomputable def rmsVal (c : Chunk) : ℝ :=
  Real.sqrt ((c.map (fun x => ((x : ℝ)) ^ 2)).sum / c.length)

/-- The level computation of `MicRecorder._audio_callback` (audio.py lines
237-242): for RMS above 1.0, map `20 * log10(rms / 32767)` from the
−60 dB .. 0 dB window linearly onto `[0, 1]` and clamp; otherwise store
0.0. -/
noncomputable def callbackLevel (c : Chunk) : ℝ :=
  if 1 < rmsVal c then
    max 0 (min 1 ((20 * Real.logb 10 (rmsVal c / 32767) + 60) / 60))
  else 0

/-- Refinement reference for C3, following the spec's words (§4.2: "Compute
RMS over the chunk's samples; convert to a decibel value relative to full
scale; map to [0,1] via a fixed window (silence floor −60 dB → 0.0, full
scale 0 dB → 1.0), clamped").  Silence (RMS 0, −∞ dB) is below the floor
and maps to 0.0. -/
noncomputable def specLevelOfRms (r : ℝ) : ℝ :=
  if r = 0 then 0
  else max 0 (min 1 ((20 * Real.logb 10 (r / 32767) + 60) / 60))

/-- The mutable fields of `MicRecorder` relevant to capture: the
`_recording` flag, the chunk buffer `_chunks`, the stored `_current_level`,
and whether an `InputStream` is held (`_stream is not None`). -/
structure MicState where
  recording : Bool
  chunks : List Chunk
  level : ℝ
  streamOpen : Bool

/-- State after `MicRecorder.__init__`. -/
noncomputable def micInit : MicState := ⟨false, [], 0, false⟩

/-- Shallow embedding of `MicRecorder.start()` (audio.py lines 166-190).
`openOk` is whether `sd.InputStream(...)` construction and `start()`
succeed.  Returns the successor state, the raised error (if any) and
whether a stream resource was acquired and retained.  While already
recording the call returns immediately.  Otherwise the chunk buffer and
level are cleared under the lock before the stream is opened; on failure
the recorder is returned to a clean non-recording state. -/
noncomputable def micStart (s : MicState) (openOk : Bool) :
    MicState × Option String × Bool :=
  if s.recording then (s, none, false)
  else
    if openOk then (⟨true, [], 0, true⟩, none, true)
    else (⟨false, [], 0, false⟩, some "mic start error", false)

/-- Shallow embedding of `MicRecorder.stop()` (audio.py lines 192-210):
when not recording, return the empty byte string unchanged; otherwise mark
not-recording, close the stream, and under the lock drain the buffer —
empty buffer yields the empty byte string, otherwise the chunks are
concatenated in order (`np.concatenate`) and the buffer cleared.  The
second component is `none` for `b""` and `some samples` for the WAV
encoding of `samples` (see `encodeWav`); the stored level is not touched. -/
noncomputable def micStop (s : MicState) : MicState × Option (List Int) :=
  if s.recording = false then (s, none)
  else
    (⟨false, [], s.level, false⟩,
      if s.chunks = [] then none else some s.chunks.flatten)

/-- Shallow embedding of `MicRecorder._audio_callback` (audio.py lines
223-246): under the lock, append the copied chunk and overwrite the
current level. -/
noncomputable def micCallback (s : MicState) (c : Chunk) : MicState :=
  ⟨s.recording, s.chunks ++ [c], callbackLevel c, s.streamOpen⟩

/-- `MicRecorder.get_level()` (audio.py lines 218-221): returns the stored
`_current_level` under the lock, with no check of `_recording`. -/
noncomputable def micGetLevel (s : MicState) : ℝ := s.level

/-- `TermuxMicRecorder.get_level()` (audio.py lines 457-459): a constant
synthetic level while recording, zero otherwise. -/
noncomputable def termuxGetLevel (s : TermuxState) : ℝ :=
  if s.recording then 0.25 else 0

/-- The events that can reach a `MicRecorder` instance: a `start()` call
(with the stream-open outcome), an audio-callback delivery, a `stop()`
call. -/
inductive MicOp where
  | start (ok : Bool)
  | callback (c : Chunk)
  | stop
deriving DecidableEq, Repr

/-- One event step of the live engine. -/
noncomputable def micStep (s : MicState) : MicOp → MicState
  | .start ok => (micStart s ok).1
  | .callback c => micCallback s c
  | .stop => (micStop s).1

/-- The live-engine state after a sequence of events from a fresh
recorder. -/
noncomputable def micRun (ops : List MicOp) : MicState :=
  ops.foldl micStep micInit

/-- Ghost accounting for C10, computed from the event list alone: `some cs`
when a recording is in progress, where `cs` are exactly the chunks
delivered by the audio callback since the `start()` call that began the
current recording, in delivery order; `none` when no recording is in
progress. -/
def ghostStep (acc : Option (List Chunk)) : MicOp → Option (List Chunk)
  | .start ok =>
    match acc with
    | some cs => some cs
    | none => if ok then some [] else none
  | .callback c => acc.map (fun cs => cs ++ [c])
  | .stop => none

/-- The chunks of the recording in progress after `ops`, per `ghostStep`. -/
def chunksSinceStart (ops : List MicOp) : Option (List Chunk) :=
  ops.foldl ghostStep none

/-- The relation maintained between the engine state and the ghost
accounting: the engine is recording exactly when the ghost is `some`, and
then the buffer holds exactly the ghost chunks. -/
def MicInv (s : MicState) (acc : Option (List Chunk)) : Prop :=
  (s.recording = true ∧ acc = some s.chunks) ∨
    (s.recording = false ∧ acc = none)

/-! ## WAV container (`MicRecorder._encode_wav`, audio.py lines 248-256,
and the Python `wave` module it delegates to) -/

/-- The WAV container produced by `wave.open(buf, "wb")` with
`setnchannels(channels)`, `setsampwidth(2)`, `setframerate(rate)` and one
`writeframes(audio_data.tobytes())`: the header fields plus the data chunk,
kept as the list of int16 values whose byte serialization (2 bytes each) is
the data chunk. -/
structure Wav where
  nchannels : Nat
  sampwidth : Nat
  framerate : Nat
  data : List Int
deriving DecidableEq, Repr

/-- `MicRecorder._encode_wav` (audio.py lines 248-256). -/
def encodeWav (channels rate : Nat) (samples : List Int) : Wav :=
  ⟨channels, 2, rate, samples⟩

/-- Size in bytes of the data chunk (`tobytes()` of int16 values). -/
def Wav.dataByteLen (w : Wav) : Nat := 2 * w.data.length

/-- `Wave_read.getnchannels()`. -/
def Wav.readNchannels (w : Wav) : Nat := w.nchannels

/-- `Wave_read.getframerate()`. -/
def Wav.readFramerate (w : Wav) : Nat := w.framerate

/-- `Wave_read.getnframes()`: the Python `wave` reader derives the frame
count as data-chunk size divided (integer division) by the frame size
`sampwidth * nchannels`. -/
def Wav.readNframes (w : Wav) : Nat :=
  w.dataByteLen / (w.sampwidth * w.nchannels)

/-- Number of int16 sample values recovered by
`readframes(getnframes())`: complete frames only. -/
def Wav.readSampleCount (w : Wav) : Nat := w.readNframes * w.nchannels

/-! ## Waveform renderer (`StatusPanel._render_waveform`, status.py) -/

/-- Python's built-in `round` on the exact value: round half to even. -/
def pyRound (q : ℚ) : ℤ :=
  if q - ⌊q⌋ = 1 / 2 then (if ⌊q⌋ % 2 = 0 then ⌊q⌋ else ⌊q⌋ + 1)
  else round q

/-- `WAVEFORM_UPPER_ROWS * 8` (status.py line 21). -/
def upperSubcells : Nat := 24

/-- `WAVEFORM_LOWER_ROWS * 2` (status.py line 25). -/
def lowerSubcells : Nat := 6

/-- The number of filled sub-cells of the waveform cell at `row` for a
column holding level `level` (status.py lines 172-185): upper rows use
`round(level * 24)` minus the sub-cells below the row, clamped to 0..8;
lower rows use `round(level * 6)` minus the sub-cells above, clamped to
0..2.  The rendered block character is indexed by exactly this value. -/
def fillAt (level : ℚ) (row : Nat) : ℤ :=
  if row < 3 then
    max 0 (min 8 (pyRound (level * 24) - (2 - (row : ℤ)) * 8))
  else
    max 0 (min 2 (pyRound (level * 6) - ((row : ℤ) - 3) * 2))

end Tnt

namespace Tnt

/-- C5: Stop-timeout handling: the wait on `recorder.stop` is bounded by 30
seconds; on timeout the worker emits exactly the timeout notification,
appends nothing to the transcript, and writes `idle` to the controller state
if and only if the captured session id still equals the controller's current
id. -/
theorem stop_timeout_reports_and_reverts_iff_current (N cur : Nat)
    (tx : TxOutcome) :
    stopTimeoutSeconds = 30 ∧
    (stopAndTranscribe N cur .timeout tx).notes = [.stopTimedOut] ∧
    (stopAndTranscribe N cur .timeout tx).appends = [] ∧
    ((stopAndTranscribe N cur .timeout tx).stateWrites = [.idle] ↔ N = cur) := by
  refine ⟨rfl, rfl, rfl, ?_⟩
  simp only [stopAndTranscribe]
  by_cases h : N = cur
  · simp [h]
  · simp [h]

/-- C1 (counterexample): a completion of the worker launched under session id
0 that runs when the controller's current id is 1 (stale) with a successful
nonempty transcription still appends its text to the transcript view, so the
claim "a stale completion emits no transcript entry" is false on the code. -/
theorem stale_completion_still_appends_counterexample :
    0 < 1 ∧
    (stopAndTranscribe 0 1 (.bytes [1]) (.text "hi")).appends = ["hi"] := by
  constructor
  · exact Nat.zero_lt_one
  · rfl

/-- C1 (amended): a stale completion (the controller's current session id
differs from the one captured at launch) never writes the controller's state
field, whatever the stop and transcription outcomes; a successful stale
transcription does, however, still append its text to the transcript view. -/
theorem stale_completion_never_writes_state (N cur : Nat)
    (stopRes : StopOutcome) (tx : TxOutcome) (h : N < cur) :
    (stopAndTranscribe N cur stopRes tx).stateWrites = [] := by
  have hne : ¬ N = cur := Nat.ne_of_lt h
  cases stopRes with
  | timeout => simp [stopAndTranscribe, hne]
  | raised m => simp [stopAndTranscribe, hne]
  | bytes wav =>
    cases tx with
    | text t =>
      by_cases hw : wav = [] <;> by_cases ht : t = "" <;>
        simp [stopAndTranscribe, hne, hw, ht]
    | fileNotFound m =>
      by_cases hw : wav = [] <;> simp [stopAndTranscribe, hne, hw]
    | runtimeFailure m =>
      by_cases hw : wav = [] <;> simp [stopAndTranscribe, hne, hw]
    | otherFailure m =>
      by_cases hw : wav = [] <;> simp [stopAndTranscribe, hne, hw]

/-- C1 (witness for the amended theorem): concrete stale completion. -/
theorem stale_completion_never_writes_state_witness :
    0 < 1 ∧
    (stopAndTranscribe 0 1 (.bytes [1]) (.text "hi")).stateWrites = [] :=
  ⟨by decide, stale_completion_never_writes_state 0 1 (.bytes [1]) (.text "hi")
    (by decide)⟩

/-- C6: clip-backend empty stop: for a recording clip-backend stop, the
polling window is 20 retries of 50 ms (≈1 second); when the raw output file
never reaches non-zero size within that window the call returns the empty
byte string without raising; and on every exit path (empty result,
conversion failure, missing output, stop-command failure, success) the
temporary directory is removed and the path fields cleared. -/
theorem termux_stop_empty_result_and_cleanup_on_every_path (s : TermuxState)
    (d : Nat) (hrec : s.recording = true) (hdir : s.tmpDir = some d)
    (quitFails convertOk wavExists : Bool) (wavBytes : List Nat) :
    termuxPollRetries = 20 ∧
    termuxPollRetries * termuxPollSleepMillis = 1000 ∧
    (termuxStop s quitFails false convertOk wavExists wavBytes).result =
      .ok [] ∧
    (∀ rawOk : Bool,
      (termuxStop s quitFails rawOk convertOk wavExists wavBytes).removedDirs
          = [d] ∧
      (termuxStop s quitFails rawOk convertOk wavExists
          wavBytes).state.tmpDir = none) := by
  cases s with
  | mk rec dir =>
    simp only [TermuxState.recording] at hrec
    simp only [TermuxState.tmpDir] at hdir
    subst hrec
    subst hdir
    refine ⟨rfl, rfl, by simp [termuxStop], ?_⟩
    intro rawOk
    cases rawOk <;> cases convertOk <;> cases wavExists <;>
      by_cases hb : wavBytes = [] <;> cases quitFails <;>
      simp [termuxStop, hb]

/-- C6 (witness): concrete recording state with temp directory 7. -/
theorem termux_stop_empty_result_and_cleanup_witness :
    (⟨true, some 7⟩ : TermuxState).recording = true ∧
    (⟨true, some 7⟩ : TermuxState).tmpDir = some 7 ∧
    (termuxPollRetries = 20 ∧
      termuxPollRetries * termuxPollSleepMillis = 1000 ∧
      (termuxStop ⟨true, some 7⟩ true false true true [1, 2]).result =
        .ok [] ∧
      (∀ rawOk : Bool,
        (termuxStop ⟨true, some 7⟩ true rawOk true true [1, 2]).removedDirs
            = [7] ∧
        (termuxStop ⟨true, some 7⟩ true rawOk true true
            [1, 2]).state.tmpDir = none)) :=
  ⟨by decide, by decide,
    termux_stop_empty_result_and_cleanup_on_every_path ⟨true, some 7⟩ 7
      (by decide) (by decide) true true true [1, 2]⟩

/-- C7: idempotence at the capture interface.  Live engine: `start()` while
already recording returns immediately — same state, no error, no stream
acquired; `stop()` while not recording returns the empty byte string with
the state untouched.  Clip engine: `start()` while recording creates no
directory, spawns no command and raises nothing; `stop()` while not
recording returns empty bytes, removes nothing and spawns no quit
command. -/
theorem capture_interface_idempotence :
    (∀ (s : MicState) (ok : Bool), s.recording = true →
      micStart s ok = (s, none, false)) ∧
    (∀ s : MicState, s.recording = false → micStop s = (s, none)) ∧
    (∀ (s : TermuxState) (d : Nat) (ok : Bool), s.recording = true →
      termuxStart s d ok = ⟨s, none, [], [], 0⟩) ∧
    (∀ (s : TermuxState) (q r c w : Bool) (b : List Nat),
      s.recording = false →
      termuxStop s q r c w b = ⟨s, .ok [], [], false⟩) := by
  refine ⟨?_, ?_, ?_, ?_⟩
  · intro s ok h
    simp [micStart, h]
  · intro s h
    simp [micStop, h]
  · intro s d ok h
    simp [termuxStart, h]
  · intro s q r c w b h
    simp [termuxStop, h]

/-- C7 (witness): concrete recording and idle states for both engines. -/
theorem capture_interface_idempotence_witness :
    (⟨true, [], 0, true⟩ : MicState).recording = true ∧
    micInit.recording = false ∧
    (⟨true, some 3⟩ : TermuxState).recording = true ∧
    termuxInit.recording = false ∧
    micStart ⟨true, [], 0, true⟩ true = (⟨true, [], 0, true⟩, none, false) ∧
    micStop micInit = (micInit, none) ∧
    termuxStart ⟨true, some 3⟩ 9 false = ⟨⟨true, some 3⟩, none, [], [], 0⟩ ∧
    termuxStop termuxInit true false true true [5] =
      ⟨termuxInit, .ok [], [], false⟩ :=
  ⟨rfl, rfl, rfl, rfl,
    capture_interface_idempotence.1 ⟨true, [], 0, true⟩ true rfl,
    capture_interface_idempotence.2.1 micInit rfl,
    capture_interface_idempotence.2.2.1 ⟨true, some 3⟩ 9 false rfl,
    capture_interface_idempotence.2.2.2 termuxInit true false true true [5]
      rfl⟩

/-- One step of the live engine preserves the ghost-buffer relation. -/
lemma micStep_preserves_inv (s : MicState) (acc : Option (List Chunk))
    (op : MicOp) (h : MicInv s acc) :
    MicInv (micStep s op) (ghostStep acc op) := by
  cases op with
  | start ok =>
    rcases h with ⟨hrec, hacc⟩ | ⟨hrec, hacc⟩
    · subst hacc
      left
      simp [micStep, micStart, hrec, ghostStep]
    · subst hacc
      cases ok with
      | true =>
        left
        simp [micStep, micStart, hrec, ghostStep]
      | false =>
        right
        simp [micStep, micStart, hrec, ghostStep]
  | callback c =>
    rcases h with ⟨hrec, hacc⟩ | ⟨hrec, hacc⟩
    · subst hacc
      left
      simp [micStep, micCallback, ghostStep, hrec]
    · subst hacc
      right
      simp [micStep, micCallback, ghostStep, hrec]
  | stop =>
    rcases h with ⟨hrec, hacc⟩ | ⟨hrec, hacc⟩
    · subst hacc
      right
      simp [micStep, micStop, ghostStep, hrec]
    · subst hacc
      right
      simp [micStep, micStop, ghostStep, hrec]

/-- The ghost-buffer relation holds along any event fold. -/
lemma micFoldl_inv (ops : List MicOp) :
    ∀ (s : MicState) (acc : Option (List Chunk)), MicInv s acc →
      MicInv (ops.foldl micStep s) (ops.foldl ghostStep acc) := by
  induction ops with
  | nil =>
    intro s acc h
    exact h
  | cons op rest ih =>
    intro s acc h
    exact ih _ _ (micStep_preserves_inv s acc op h)

/-- C10: no cross-recording audio leakage in the live engine.  For any
event sequence after which a recording is in progress, the buffer holds
exactly the chunks delivered by the audio callback since the `start()` that
began the current recording (ghost accounting `chunksSinceStart`), and
`stop()` returns exactly their in-order concatenation (empty byte string
when there are none) and leaves the buffer cleared; moreover `start()` from
a non-recording state always clears the buffer and resets the level to
0.0 — so no earlier recording's samples can be returned. -/
theorem mic_no_cross_recording_leakage (ops : List MicOp) (cs : List Chunk)
    (h : chunksSinceStart ops = some cs) :
    (micRun ops).recording = true ∧
    (micRun ops).chunks = cs ∧
    (micStop (micRun ops)).2 =
      (if cs = [] then none else some cs.flatten) ∧
    ((micStop (micRun ops)).1).chunks = [] ∧
    (∀ (s : MicState) (ok : Bool), s.recording = false →
      ((micStart s ok).1).chunks = [] ∧
      micGetLevel ((micStart s ok).1) = 0) := by
  have hinv : MicInv (micRun ops) (chunksSinceStart ops) :=
    micFoldl_inv ops micInit none (Or.inr ⟨rfl, rfl⟩)
  rcases hinv with ⟨hrec, hacc⟩ | ⟨hrec, hacc⟩
  · rw [h] at hacc
    have hcs : (micRun ops).chunks = cs := by
      injection hacc with h'
      exact h'.symm
    refine ⟨hrec, hcs, ?_, ?_, ?_⟩
    · simp [micStop, hrec, hcs]
    · simp [micStop, hrec]
    · intro s ok hs
      cases ok <;> simp [micStart, micGetLevel, hs]
  · rw [h] at hacc
    exact absurd hacc (Option.some_ne_none cs)

/-- C10 (witness): one recording with one delivered chunk. -/
theorem mic_no_cross_recording_leakage_witness :
    chunksSinceStart [.start true, .callback [5]] = some [[5]] ∧
    ((micRun [.start true, .callback [5]]).recording = true ∧
      (micRun [.start true, .callback [5]]).chunks = [[5]] ∧
      (micStop (micRun [.start true, .callback [5]])).2 =
        (if ([[5]] : List Chunk) = [] then none
         else some ([[5]] : List Chunk).flatten) ∧
      ((micStop (micRun [.start true, .callback [5]])).1).chunks = [] ∧
      (∀ (s : MicState) (ok : Bool), s.recording = false →
        ((micStart s ok).1).chunks = [] ∧
        micGetLevel ((micStart s ok).1) = 0)) :=
  ⟨rfl, mic_no_cross_recording_leakage [.start true, .callback [5]] [[5]] rfl⟩

/-- The callback level of a full-scale chunk is 1. -/
lemma callbackLevel_fullscale : callbackLevel [32767] = 1 := by
  have h1 : ((([32767] : Chunk).map (fun x => ((x : ℝ)) ^ 2)).sum /
      (([32767] : Chunk).length : ℝ)) = (32767 : ℝ) ^ 2 := by
    norm_num
  have hrms : rmsVal [32767] = 32767 := by
    unfold rmsVal
    rw [h1]
    exact Real.sqrt_sq (by norm_num)
  unfold callbackLevel
  rw [hrms, if_pos (by norm_num : (1 : ℝ) < 32767),
    div_self (by norm_num : (32767 : ℝ) ≠ 0), Real.logb_one]
  norm_num

/-- C2 (counterexample): on the live engine, after `start()`, one
full-scale audio chunk, and `stop()`, the engine is not recording yet
`get_level()` returns 1.0, not 0.0 — `stop()` does not reset
`_current_level`, so the claim "level() returns exactly 0.0 whenever not
recording" is false on the code. -/
theorem live_level_nonzero_after_stop_counterexample :
    ((micStop (micCallback ((micStart micInit true).1) [32767])).1).recording
        = false ∧
    micGetLevel
      ((micStop (micCallback ((micStart micInit true).1) [32767])).1) = 1 ∧
    (1 : ℝ) ≠ 0 := by
  have hstate :
      (micStop (micCallback ((micStart micInit true).1) [32767])).1 =
        ⟨false, [], callbackLevel [32767], false⟩ := by
    simp [micInit, micStart, micCallback, micStop]
  rw [hstate]
  exact ⟨rfl, callbackLevel_fullscale, by norm_num⟩

/-- C2 (amended): the clip engine returns level 0.0 whenever not recording;
the live engine returns the stored `_current_level`, which is 0.0 at
construction and reset to 0.0 by every `start()` call, but is not reset by
`stop()` — immediately after stopping a recording it still returns the last
chunk's level, which can be nonzero. -/
theorem level_zero_when_not_recording_amended :
    (∀ ts : TermuxState, ts.recording = false → termuxGetLevel ts = 0) ∧
    micGetLevel micInit = 0 ∧
    (∀ (s : MicState) (ok : Bool), s.recording = false →
      micGetLevel ((micStart s ok).1) = 0) := by
  refine ⟨?_, rfl, ?_⟩
  · intro ts h
    simp [termuxGetLevel, h]
  · intro s ok h
    cases ok <;> simp [micStart, micGetLevel, h]

/-- C2 (witness for the amended theorem): fresh engines. -/
theorem level_zero_when_not_recording_amended_witness :
    termuxInit.recording = false ∧
    micInit.recording = false ∧
    termuxGetLevel termuxInit = 0 ∧
    micGetLevel micInit = 0 ∧
    micGetLevel ((micStart micInit false).1) = 0 :=
  ⟨rfl, rfl, level_zero_when_not_recording_amended.1 termuxInit rfl,
    level_zero_when_not_recording_amended.2.1,
    level_zero_when_not_recording_amended.2.2 micInit false rfl⟩

/-- C3: for every (nonempty) chunk delivered to the live engine's audio
callback, the stored level equals the spec's mapping of the chunk's RMS —
decibels relative to full scale 32767, −60 dB ↦ 0.0 and 0 dB ↦ 1.0
linearly, clamped to `[0, 1]` — and in particular lies in `[0, 1]`.  The
code's short-circuit for RMS ≤ 1.0 agrees with the spec mapping because
such an RMS is at most −90 dB, far below the −60 dB floor. -/
theorem callback_level_matches_spec_and_in_range (c : Chunk) (h : c ≠ []) :
    callbackLevel c = specLevelOfRms (rmsVal c) ∧
    0 ≤ callbackLevel c ∧ callbackLevel c ≤ 1 := by
  have hr0 : 0 ≤ rmsVal c := Real.sqrt_nonneg _
  by_cases h1 : 1 < rmsVal c
  · have hne : rmsVal c ≠ 0 := by linarith
    refine ⟨?_, ?_, ?_⟩
    · unfold callbackLevel specLevelOfRms
      rw [if_pos h1, if_neg hne]
    · unfold callbackLevel
      rw [if_pos h1]
      exact le_max_left _ _
    · unfold callbackLevel
      rw [if_pos h1]
      exact max_le (by norm_num) (min_le_left _ _)
  · have hcode : callbackLevel c = 0 := by
      unfold callbackLevel
      rw [if_neg h1]
    refine ⟨?_, by rw [hcode], by rw [hcode]; norm_num⟩
    rw [hcode]
    unfold specLevelOfRms
    by_cases hz : rmsVal c = 0
    · rw [if_pos hz]
    · rw [if_neg hz]
      have hpos : 0 < rmsVal c := lt_of_le_of_ne hr0 (Ne.symm hz)
      have hle : rmsVal c ≤ 1 := le_of_not_lt h1
      have hlogb : Real.logb 10 (rmsVal c / 32767) ≤ -3 := by
        rw [Real.logb_le_iff_le_rpow (by norm_num)
          (div_pos hpos (by norm_num))]
        have hp : (10 : ℝ) ^ (-3 : ℝ) = 1 / 1000 := by
          rw [show (-3 : ℝ) = -((3 : ℕ) : ℝ) by norm_num,
            Real.rpow_neg (by norm_num), Real.rpow_natCast]
          norm_num
        rw [hp]
        have hd : rmsVal c / 32767 ≤ 1 / 32767 :=
          (div_le_div_iff_of_pos_right (by norm_num)).mpr hle
        have hdd : (1 : ℝ) / 32767 ≤ 1 / 1000 := by norm_num
        linarith
      have hmin :
          min 1 ((20 * Real.logb 10 (rmsVal c / 32767) + 60) / 60) ≤ 0 := by
        have hnum :
            (20 * Real.logb 10 (rmsVal c / 32767) + 60) / 60 ≤ 0 := by
          linarith
        exact le_trans (min_le_right _ _) hnum
      exact (max_eq_left hmin).symm

/-- C3 (witness): the all-zero chunk. -/
theorem callback_level_matches_spec_witness :
    ([0] : Chunk) ≠ [] ∧
    (callbackLevel [0] = specLevelOfRms (rmsVal [0]) ∧
      0 ≤ callbackLevel [0] ∧ callbackLevel [0] ≤ 1) :=
  ⟨by decide, callback_level_matches_spec_and_in_range [0] (by decide)⟩

/-- C8 (counterexample): one 16-bit sample encoded with channel count 2:
re-reading the container yields the rate and channel count back but 0
complete-frame samples, not 1 — the data chunk holds half a frame, and the
`wave` reader's frame count floors.  So the round-trip claim, quantified
over every sample count and channel count, is false on the code. -/
theorem wav_roundtrip_counterexample :
    (encodeWav 2 8000 [0]).readNchannels = 2 ∧
    (encodeWav 2 8000 [0]).readFramerate = 8000 ∧
    ([0] : List Int).length = 1 ∧
    (encodeWav 2 8000 [0]).readSampleCount = 0 := by
  decide

/-- C8 (amended): encoding N 16-bit samples at rate R with channel count C
and re-reading always returns the same rate and channel count; the re-read
frame count is ⌊N / C⌋, so the sample count round-trips exactly when C
divides N — in particular always in the engine's mono configuration, and
always when N counts whole frames. -/
theorem wav_roundtrip_amended (channels rate : Nat) (samples : List Int)
    (hc : 0 < channels) :
    (encodeWav channels rate samples).readNchannels = channels ∧
    (encodeWav channels rate samples).readFramerate = rate ∧
    (encodeWav channels rate samples).readNframes =
      samples.length / channels ∧
    (channels ∣ samples.length →
      (encodeWav channels rate samples).readSampleCount =
        samples.length) := by
  have hframes : (encodeWav channels rate samples).readNframes =
      samples.length / channels := by
    show 2 * samples.length / (2 * channels) = samples.length / channels
    exact Nat.mul_div_mul_left samples.length channels (by norm_num)
  refine ⟨rfl, rfl, hframes, ?_⟩
  intro hdvd
  show (encodeWav channels rate samples).readNframes * channels =
    samples.length
  rw [hframes]
  exact Nat.div_mul_cancel hdvd

/-- C8 (witness for the amended theorem): three mono samples. -/
theorem wav_roundtrip_amended_witness :
    0 < 1 ∧ (1 ∣ ([3, 4, 5] : List Int).length) ∧
    (encodeWav 1 16000 [3, 4, 5]).readNchannels = 1 ∧
    (encodeWav 1 16000 [3, 4, 5]).readFramerate = 16000 ∧
    (encodeWav 1 16000 [3, 4, 5]).readNframes =
      ([3, 4, 5] : List Int).length / 1 ∧
    (encodeWav 1 16000 [3, 4, 5]).readSampleCount =
      ([3, 4, 5] : List Int).length :=
  ⟨by decide, by decide,
    (wav_roundtrip_amended 1 16000 [3, 4, 5] (by decide)).1,
    (wav_roundtrip_amended 1 16000 [3, 4, 5] (by decide)).2.1,
    (wav_roundtrip_amended 1 16000 [3, 4, 5] (by decide)).2.2.1,
    (wav_roundtrip_amended 1 16000 [3, 4, 5] (by decide)).2.2.2
      (by decide)⟩

/-- Python's round never exceeds the floor by more than one. -/
lemma pyRound_le_floor_add_one (q : ℚ) : pyRound q ≤ ⌊q⌋ + 1 := by
  unfold pyRound
  by_cases h : q - ⌊q⌋ = 1 / 2
  · rw [if_pos h]
    by_cases he : ⌊q⌋ % 2 = 0
    · rw [if_pos he]
      omega
    · rw [if_neg he]
  · rw [if_neg h, round_eq]
    calc ⌊q + 1 / 2⌋ ≤ ⌊q + 1⌋ := Int.floor_le_floor (by linarith)
      _ = ⌊q⌋ + 1 := by
        rw [show q + 1 = q + (1 : ℤ) by norm_num, Int.floor_add_int]

/-- Python's round never falls below the floor. -/
lemma floor_le_pyRound (q : ℚ) : ⌊q⌋ ≤ pyRound q := by
  unfold pyRound
  by_cases h : q - ⌊q⌋ = 1 / 2
  · rw [if_pos h]
    by_cases he : ⌊q⌋ % 2 = 0
    · rw [if_pos he]
    · rw [if_neg he]
      omega
  · rw [if_neg h, round_eq]
    exact Int.floor_le_floor (by linarith)

/-- Below the half-way point, Python's round is the floor. -/
lemma pyRound_eq_floor_of_frac_lt (q : ℚ) (h : q - ⌊q⌋ < 1 / 2) :
    pyRound q = ⌊q⌋ := by
  have hne : q - ⌊q⌋ ≠ 1 / 2 := ne_of_lt h
  rw [pyRound, if_neg hne, round_eq]
  refine Int.floor_eq_iff.mpr ⟨?_, ?_⟩
  · have := Int.floor_le q
    linarith
  · linarith [Int.floor_le q]

/-- Above the half-way point, Python's round is the floor plus one. -/
lemma pyRound_eq_succ_of_half_lt_frac (q : ℚ) (h : 1 / 2 < q - ⌊q⌋) :
    pyRound q = ⌊q⌋ + 1 := by
  rw [pyRound, if_neg (ne_of_gt h), round_eq]
  refine Int.floor_eq_iff.mpr ⟨?_, ?_⟩
  · push_cast
    linarith
  · push_cast
    have := Int.lt_floor_add_one q
    linarith

/-- Python's round-half-to-even is monotone. -/
lemma pyRound_mono {a b : ℚ} (hab : a ≤ b) : pyRound a ≤ pyRound b := by
  by_cases hf : ⌊a⌋ = ⌊b⌋
  · rcases lt_trichotomy (a - ⌊a⌋) (1 / 2) with hlt | heq | hgt
    · rw [pyRound_eq_floor_of_frac_lt a hlt, hf]
      exact floor_le_pyRound b
    · rcases eq_or_lt_of_le hab with heq2 | hlt2
      · rw [heq2]
      · have hb : 1 / 2 < b - ⌊b⌋ := by
          rw [← hf]
          linarith
        rw [pyRound_eq_succ_of_half_lt_frac b hb, ← hf]
        exact pyRound_le_floor_add_one a
    · have hb : 1 / 2 < b - ⌊b⌋ := by
        rw [← hf]
        linarith
      rw [pyRound_eq_succ_of_half_lt_frac a hgt,
        pyRound_eq_succ_of_half_lt_frac b hb, hf]
  · have hflt : ⌊a⌋ < ⌊b⌋ := lt_of_le_of_ne (Int.floor_le_floor hab) hf
    calc pyRound a ≤ ⌊a⌋ + 1 := pyRound_le_floor_add_one a
      _ ≤ ⌊b⌋ := by omega
      _ ≤ pyRound b := floor_le_pyRound b

/-- C9: waveform monotonicity — for levels a ≤ b in [0, 1], every row's
filled sub-cell count for b is at least that for a: the per-row fill
`clamp(round(level * subcells) − offset)` is monotone in the level. -/
theorem waveform_fill_monotone (a b : ℚ) (row : Nat) (h0 : 0 ≤ a)
    (hab : a ≤ b) (h1 : b ≤ 1) :
    fillAt a row ≤ fillAt b row := by
  have h24 : pyRound (a * 24) ≤ pyRound (b * 24) :=
    pyRound_mono (mul_le_mul_of_nonneg_right hab (by norm_num))
  have h6 : pyRound (a * 6) ≤ pyRound (b * 6) :=
    pyRound_mono (mul_le_mul_of_nonneg_right hab (by norm_num))
  unfold fillAt
  by_cases hr : row < 3
  · rw [if_pos hr, if_pos hr]
    exact max_le_max (le_refl 0)
      (min_le_min (le_refl 8) (sub_le_sub_right h24 _))
  · rw [if_neg hr, if_neg hr]
    exact max_le_max (le_refl 0)
      (min_le_min (le_refl 2) (sub_le_sub_right h6 _))

/-- C9 (witness): levels 0 and 1 in the bottom-most upper row. -/
theorem waveform_fill_monotone_witness :
    (0 : ℚ) ≤ 0 ∧ (0 : ℚ) ≤ 1 ∧ (1 : ℚ) ≤ 1 ∧
    fillAt 0 0 ≤ fillAt 1 0 :=
  ⟨le_refl 0, by norm_num, le_refl 1,
    waveform_fill_monotone 0 1 0 (le_refl 0) (by norm_num) (le_refl 1)⟩

/-- C4: with an explicit backend override (the environment variable, trimmed
and lowercased, equal to `"live"` or `"termux_api"`), the factory attempts
exactly the named backend and returns that backend's construction outcome
unchanged: a construction failure propagates as the very same error and the
other backend is never attempted. -/
theorem explicit_override_is_deterministic_no_fallback (env : Option String)
    (inProot : Bool) (liveBuild termuxBuild : Except String Unit) :
    (normalizedBackendRequest env = "live" →
      createRecorder env inProot liveBuild termuxBuild =
        ⟨liveBuild.map (fun _ => Backend.live), [.live]⟩) ∧
    (normalizedBackendRequest env = "termux_api" →
      createRecorder env inProot liveBuild termuxBuild =
        ⟨termuxBuild.map (fun _ => Backend.termuxApi), [.termuxApi]⟩) := by
  constructor
  · intro h
    simp only [createRecorder, resolveCaptureBackend, h]
    cases liveBuild with
    | ok u => rfl
    | error e => rfl
  · intro h
    have hne : normalizedBackendRequest env ≠ "live" := by
      rw [h]; decide
    simp only [createRecorder, resolveCaptureBackend, h, if_neg hne]
    cases termuxBuild with
    | ok u => rfl
    | error e => rfl

/-- C4 (witness): concrete overrides `" Live "` and `"TERMUX_API"`; a failing
explicit live build propagates its exact error with only `live` attempted,
and a succeeding explicit termux build yields the termux backend with only
`termux_api` attempted. -/
theorem explicit_override_is_deterministic_no_fallback_witness :
    normalizedBackendRequest (some " Live ") = "live" ∧
    normalizedBackendRequest (some "TERMUX_API") = "termux_api" ∧
    createRecorder (some " Live ") true (.error "boom") (.ok ()) =
      ⟨(Except.error "boom" : Except String Unit).map (fun _ => Backend.live),
        [.live]⟩ ∧
    createRecorder (some "TERMUX_API") false (.error "boom") (.ok ()) =
      ⟨(Except.ok () : Except String Unit).map (fun _ => Backend.termuxApi),
        [.termuxApi]⟩ :=
  ⟨by decide, by decide,
    (explicit_override_is_deterministic_no_fallback (some " Live ") true
      (.error "boom") (.ok ())).1 (by decide),
    (explicit_override_is_deterministic_no_fallback (some "TERMUX_API") false
      (.error "boom") (.ok ())).2 (by decide)⟩

end Tnt
